import Mathlib

/-!
Shallow embedding of the Copilot CLI API server
(`src/copilot_api_server.py`).

The server shells out to external commands (the Copilot assistant and
git).  We embed the outside world as an oracle: a function from a working
directory and a command line to a `ProcOutcome`, plus a function telling
which filesystem paths exist.  Timestamps (`datetime.now()`) are elided
from the response model, being nondeterministic wall-clock values that no
claim mentions.  Every other field of every `jsonify` literal in the
source is carried by the response model.
-/

/-- The dict returned by `CopilotExecutor.run_command` (lines 47-66):
keys `success`, `stdout`, `stderr`, `returncode`. -/
structure CommandResult where
  success : Bool
  stdout : String
  stderr : String
  returncode : Int
deriving Repr, DecidableEq

/-- What happens when `subprocess.run` is attempted: either the process
runs to completion with an exit code and captured output, or it exceeds
the 300-second timeout (`subprocess.TimeoutExpired`), or it cannot be
launched at all and `subprocess.run` raises (`except Exception as e`,
with `str e` the message). -/
inductive ProcOutcome where
  | completed (returncode : Int) (stdout : String) (stderr : String)
  | timedOut
  | launchError (msg : String)
deriving Repr, DecidableEq

/-- `CopilotExecutor.run_command` (lines 37-66): normalises the three
possible outcomes of `subprocess.run` into one `CommandResult`.  The
function is total: no exception escapes to the caller. -/
def run_command (outcome : ProcOutcome) : CommandResult :=
  match outcome with
  | .completed rc out err =>
      { success := rc == 0, stdout := out, stderr := err, returncode := rc }
  | .timedOut =>
      { success := false, stdout := ""
        stderr := "Command timed out after 5 minutes", returncode := -1 }
  | .launchError msg =>
      { success := false, stdout := "", stderr := msg, returncode := -1 }

/-- Python truthiness for an optional string (`data.get(...)` returns
`None` when the key is absent): `None` and `""` are falsy. -/
def pyTruthy : Option String → Bool
  | none => false
  | some s => !(s == "")

/-- Python truthiness for an optional list (`if files:`): `None` and `[]`
are falsy. -/
def pyTruthyList : Option (List String) → Bool
  | none => false
  | some l => !l.isEmpty

/-- The string value once a truthiness check passed (falsy values map to
`""`; they are only ever read behind a `pyTruthy` guard). -/
def optStr : Option String → String
  | none => ""
  | some s => s

/-- `os.path.join(a, b)` for a relative `b`, as used at lines 33, 173,
227 and 315. -/
def pathJoin (a b : String) : String := a ++ "/" ++ b

/-- Splitting a character list at every `,`, accumulating the current
segment in reverse: the recursion behind Python's `split(',')`. -/
def splitCommaAux : List Char → List Char → List String
  | [], acc => [String.mk acc.reverse]
  | c :: cs, acc =>
      if c = ',' then String.mk acc.reverse :: splitCommaAux cs []
      else splitCommaAux cs (c :: acc)

/-- Python's `s.split(',')`: cuts `s` at every comma, keeping empty
segments; `''.split(',')` is `['']`. -/
def pySplitComma (s : String) : List String := splitCommaAux s.data []

/-- `ALLOWED_REPOS = os.getenv('ALLOWED_REPOS', '').split(',')`
(line 19). -/
def ALLOWED_REPOS (env : String) : List String := pySplitComma env

/-- The guard of line 133, `ALLOWED_REPOS and ALLOWED_REPOS[0]`: the
split list is truthy (non-empty) and its first element is truthy
(non-empty string).  An unset or empty `ALLOWED_REPOS` environment
variable yields `[""]`, for which this is false. -/
def allowlistActive (allowed : List String) : Bool :=
  !allowed.isEmpty && !(allowed.headD "" == "")

/-- The request body fields the three POST endpoints read. -/
structure RequestData where
  repo_name : Option String
  prompt : Option String
  commit_message : Option String
  branch : Option String
  files : Option (List String)

/-- `validate_request` (lines 125-136): requires a truthy `repo_name`,
then enforces the allow-list when the guard of line 133 fires. -/
def validate_request (allowed : List String) (data : RequestData) :
    Except String Unit :=
  if !(pyTruthy data.repo_name) then
    .error "repo_name is required"
  else
    let repo_name := optStr data.repo_name
    if allowlistActive allowed && !(allowed.contains repo_name) then
      .error ("Repository " ++ repo_name ++ " is not allowed")
    else
      .ok ()

/-- An observable side effect of handling a request: an
`os.path.exists` call, or a `subprocess.run` launch. -/
inductive Effect where
  | pathCheck (path : String)
  | spawn (command : List String)
deriving Repr, DecidableEq

/-- The commands actually launched, in order, within an effect trace. -/
def spawned (effs : List Effect) : List (List String) :=
  effs.filterMap fun e =>
    match e with
    | .spawn c => some c
    | .pathCheck _ => none

/-- The outside world: which paths exist, and what running a command in
a working directory does. -/
structure World where
  exists_path : String → Bool
  proc : String → List String → ProcOutcome

/-- `CopilotExecutor.validate_repo` (lines 28-35): checks path
existence first, then existence of the `.git` subdirectory; raises
`ValueError` (here: `.error` with the same message) on either failure.
The effect trace records the `os.path.exists` calls in order. -/
def validate_repo (w : World) (repo_path : String) :
    Except String Unit × List Effect :=
  if !(w.exists_path repo_path) then
    (.error ("Repository path does not exist: " ++ repo_path),
     [.pathCheck repo_path])
  else
    let git_dir := pathJoin repo_path ".git"
    if !(w.exists_path git_dir) then
      (.error ("Not a git repository: " ++ repo_path),
       [.pathCheck repo_path, .pathCheck git_dir])
    else
      (.ok (), [.pathCheck repo_path, .pathCheck git_dir])

/-- The command built by `CopilotExecutor.execute_copilot`
(lines 68-79): `gh copilot suggest [--files f1,f2] prompt`. -/
def copilot_command (prompt : String) (files : Option (List String)) :
    List String :=
  ["gh", "copilot", "suggest"]
    ++ (if pyTruthyList files then
          ["--files", String.intercalate "," (files.getD [])]
        else [])
    ++ [prompt]

/-- `CopilotExecutor.git_add` (lines 94-101): named files, or `-A` when
none given. -/
def git_add_command (files : Option (List String)) : List String :=
  if pyTruthyList files then
    ["git", "add"] ++ files.getD []
  else
    ["git", "add", "-A"]

/-- `CopilotExecutor.git_commit` (lines 103-105). -/
def git_commit_command (message : String) : List String :=
  ["git", "commit", "-m", message]

/-- `CopilotExecutor.git_push` (lines 107-113): remote then optional
branch; all call sites use the default remote `origin`. -/
def git_push_command (branch : Option String) (remote : String) :
    List String :=
  ["git", "push", remote] ++ (if pyTruthy branch then [optStr branch] else [])

/-- `CopilotExecutor.git_status` (lines 90-92). -/
def git_status_command : List String := ["git", "status", "--porcelain"]

/-- Server configuration: `REPOS_BASE_PATH` (line 18) and the raw
`ALLOWED_REPOS` environment string (line 19). -/
structure Config where
  basePath : String
  allowedEnv : String

/-- One `jsonify` body from the source, timestamps elided.  Each
constructor is one literal:
* `errorOnly e` — `{'error': e}` (400 validation errors, and the
  `except` handlers at lines 194, 278, 379);
* `errorDetails e d` — `{'error': e, 'details': d}` (commit-and-push
  step failures, lines 240-243, 250-253, 260-263);
* `errorDetailsResults e d wr` — `{'error': e, 'details': d,
  'workflow_results': wr}` (workflow step failures, lines 328-332,
  340-344, 352-356, 364-368);
* `executeOk s out err st` — `{'success': s, 'output': out, 'error':
  err, 'git_status': st, ...}` (lines 184-190);
* `commitPushOk a c p` — `{'success': True, 'message': ...,
  'results': {'add': a, 'commit': c, 'push': p}, ...}` (lines 265-274);
* `workflowOk wr` — `{'success': True, 'message': ...,
  'workflow_results': wr, ...}` (lines 370-375). -/
inductive ResponseBody where
  | errorOnly (error : String)
  | errorDetails (error : String) (details : String)
  | errorDetailsResults (error : String) (details : String)
      (workflow_results : List (String × CommandResult))
  | executeOk (success : Bool) (output : String) (error : String)
      (git_status : String)
  | commitPushOk (addOut : String) (commitOut : String) (pushOut : String)
  | workflowOk (workflow_results : List (String × CommandResult))
deriving Repr, DecidableEq

/-- An HTTP response: status code plus JSON body. -/
structure HttpResponse where
  status : Nat
  body : ResponseBody
deriving Repr, DecidableEq

/-- The step names present in a response body: the keys of the
step-result mapping it carries, if any (`commitPushOk` carries the
three stdout strings under `results.add/commit/push`). -/
def bodySteps : ResponseBody → List String
  | .errorDetailsResults _ _ wr => wr.map Prod.fst
  | .workflowOk wr => wr.map Prod.fst
  | .commitPushOk _ _ _ => ["add", "commit", "push"]
  | _ => []

/-- `isOk e` tells whether an `Except` is `.ok` (used to state which
branch a handler took). -/
def isOk : Except String Unit → Bool
  | .ok _ => true
  | .error _ => false

/-- The `/api/git/commit-and-push` handler (lines 197-278).  Returns the
HTTP response together with the trace of filesystem checks and process
launches, in order.  The `try/except` at lines 210/276 turns the
`ValueError` of `validate_repo` into a 500 `{'error': str e}` response.
The handler accumulates a `results` dict (lines 233-257) but its failure
responses return only `error` and `details` (lines 240-243, 250-253,
260-263); the success response reads the three stdouts directly
(lines 268-272). -/
def commit_and_push (cfg : Config) (w : World) (data : RequestData) :
    HttpResponse × List Effect :=
  match validate_request (ALLOWED_REPOS cfg.allowedEnv) data with
  | .error msg => (⟨400, .errorOnly msg⟩, [])
  | .ok _ =>
    if !(pyTruthy data.commit_message) then
      (⟨400, .errorOnly "commit_message is required"⟩, [])
    else
      let repo_path := pathJoin cfg.basePath (optStr data.repo_name)
      let vr := validate_repo w repo_path
      match vr.1 with
      | .error msg => (⟨500, .errorOnly msg⟩, vr.2)
      | .ok _ =>
        let add_cmd := git_add_command data.files
        let add_result := run_command (w.proc repo_path add_cmd)
        let effs1 := vr.2 ++ [.spawn add_cmd]
        if !add_result.success then
          (⟨500, .errorDetails "Failed to stage files" add_result.stderr⟩,
           effs1)
        else
          let commit_cmd := git_commit_command (optStr data.commit_message)
          let commit_result := run_command (w.proc repo_path commit_cmd)
          let effs2 := effs1 ++ [.spawn commit_cmd]
          if !commit_result.success then
            (⟨500, .errorDetails "Failed to commit" commit_result.stderr⟩,
             effs2)
          else
            let push_cmd := git_push_command data.branch "origin"
            let push_result := run_command (w.proc repo_path push_cmd)
            let effs3 := effs2 ++ [.spawn push_cmd]
            if !push_result.success then
              (⟨500, .errorDetails "Failed to push" push_result.stderr⟩,
               effs3)
            else
              (⟨200, .commitPushOk add_result.stdout commit_result.stdout
                  push_result.stdout⟩, effs3)

/-- The `/api/copilot/execute` handler (lines 145-194).  After a
successful assistant invocation or not, it also runs `git status` and
always answers with HTTP 200 carrying `result.success`, the stdout, the
stderr and the status output (lines 179-190). -/
def execute_copilot_route (cfg : Config) (w : World) (data : RequestData) :
    HttpResponse × List Effect :=
  match validate_request (ALLOWED_REPOS cfg.allowedEnv) data with
  | .error msg => (⟨400, .errorOnly msg⟩, [])
  | .ok _ =>
    if !(pyTruthy data.prompt) then
      (⟨400, .errorOnly "prompt is required"⟩, [])
    else
      let repo_path := pathJoin cfg.basePath (optStr data.repo_name)
      let vr := validate_repo w repo_path
      match vr.1 with
      | .error msg => (⟨500, .errorOnly msg⟩, vr.2)
      | .ok _ =>
        let cmd := copilot_command (optStr data.prompt) data.files
        let result := run_command (w.proc repo_path cmd)
        let status := run_command (w.proc repo_path git_status_command)
        (⟨200, .executeOk result.success result.stdout result.stderr
            status.stdout⟩,
         vr.2 ++ [.spawn cmd, .spawn git_status_command])

/-- The `/api/workflow/copilot-commit-push` handler (lines 281-379):
validate, then copilot → add → commit → push, recording each step's
result in `workflow_results` under the keys `copilot`, `add`, `commit`,
`push` (lines 325, 337, 349, 361), short-circuiting with a 500 response
that carries the accumulated `workflow_results` on the first failure. -/
def copilot_commit_push_workflow (cfg : Config) (w : World)
    (data : RequestData) : HttpResponse × List Effect :=
  match validate_request (ALLOWED_REPOS cfg.allowedEnv) data with
  | .error msg => (⟨400, .errorOnly msg⟩, [])
  | .ok _ =>
    if !(pyTruthy data.prompt) then
      (⟨400, .errorOnly "prompt is required"⟩, [])
    else if !(pyTruthy data.commit_message) then
      (⟨400, .errorOnly "commit_message is required"⟩, [])
    else
      let repo_path := pathJoin cfg.basePath (optStr data.repo_name)
      let vr := validate_repo w repo_path
      match vr.1 with
      | .error msg => (⟨500, .errorOnly msg⟩, vr.2)
      | .ok _ =>
        let copilot_cmd := copilot_command (optStr data.prompt) data.files
        let copilot_result := run_command (w.proc repo_path copilot_cmd)
        let wr1 := [("copilot", copilot_result)]
        let effs1 := vr.2 ++ [.spawn copilot_cmd]
        if !copilot_result.success then
          (⟨500, .errorDetailsResults "Copilot execution failed"
              copilot_result.stderr wr1⟩, effs1)
        else
          let add_cmd := git_add_command data.files
          let add_result := run_command (w.proc repo_path add_cmd)
          let wr2 := wr1 ++ [("add", add_result)]
          let effs2 := effs1 ++ [.spawn add_cmd]
          if !add_result.success then
            (⟨500, .errorDetailsResults "Failed to stage files"
                add_result.stderr wr2⟩, effs2)
          else
            let commit_cmd := git_commit_command (optStr data.commit_message)
            let commit_result := run_command (w.proc repo_path commit_cmd)
            let wr3 := wr2 ++ [("commit", commit_result)]
            let effs3 := effs2 ++ [.spawn commit_cmd]
            if !commit_result.success then
              (⟨500, .errorDetailsResults "Failed to commit"
                  commit_result.stderr wr3⟩, effs3)
            else
              let push_cmd := git_push_command data.branch "origin"
              let push_result := run_command (w.proc repo_path push_cmd)
              let wr4 := wr3 ++ [("push", push_result)]
              let effs4 := effs3 ++ [.spawn push_cmd]
              if !push_result.success then
                (⟨500, .errorDetailsResults "Failed to push"
                    push_result.stderr wr4⟩, effs4)
              else
                (⟨200, .workflowOk wr4⟩, effs4)

/-- The resolved repository path of a request (line 173/227/315). -/
def repoPath (cfg : Config) (data : RequestData) : String :=
  pathJoin cfg.basePath (optStr data.repo_name)

/-- The result the staging step would produce for this request. -/
def addResult (cfg : Config) (w : World) (data : RequestData) :
    CommandResult :=
  run_command (w.proc (repoPath cfg data) (git_add_command data.files))

/-- The result the commit step would produce for this request. -/
def commitResult (cfg : Config) (w : World) (data : RequestData) :
    CommandResult :=
  run_command (w.proc (repoPath cfg data)
    (git_commit_command (optStr data.commit_message)))

/-- The result the push step would produce for this request. -/
def pushResult (cfg : Config) (w : World) (data : RequestData) :
    CommandResult :=
  run_command (w.proc (repoPath cfg data)
    (git_push_command data.branch "origin"))

/-- The result the assistant invocation would produce for this request. -/
def copilotResult (cfg : Config) (w : World) (data : RequestData) :
    CommandResult :=
  run_command (w.proc (repoPath cfg data)
    (copilot_command (optStr data.prompt) data.files))

/-- All pre-step checks of commit-and-push pass for this request. -/
def cpReaches (cfg : Config) (w : World) (data : RequestData) : Bool :=
  isOk (validate_request (ALLOWED_REPOS cfg.allowedEnv) data)
    && pyTruthy data.commit_message
    && isOk (validate_repo w (repoPath cfg data)).1

/-- All pre-step checks of the full workflow pass for this request. -/
def wfReaches (cfg : Config) (w : World) (data : RequestData) : Bool :=
  isOk (validate_request (ALLOWED_REPOS cfg.allowedEnv) data)
    && pyTruthy data.prompt
    && pyTruthy data.commit_message
    && isOk (validate_repo w (repoPath cfg data)).1

/-- All pre-step checks of `/api/copilot/execute` pass. -/
def exReaches (cfg : Config) (w : World) (data : RequestData) : Bool :=
  isOk (validate_request (ALLOWED_REPOS cfg.allowedEnv) data)
    && pyTruthy data.prompt
    && isOk (validate_repo w (repoPath cfg data)).1

/-- The result `git status --porcelain` would produce for this request
(run by `/api/copilot/execute` after the assistant invocation). -/
def statusResult (cfg : Config) (w : World) (data : RequestData) :
    CommandResult :=
  run_command (w.proc (repoPath cfg data) git_status_command)

/-- The `details` field of a response body, when it has one (failing
step's captured stderr). -/
def bodyDetails : ResponseBody → Option String
  | .errorDetails _ d => some d
  | .errorDetailsResults _ d _ => some d
  | _ => none

/-- Test fixture: configuration with base path `/var/repos` and no
allow-list configured (`ALLOWED_REPOS` env unset, so the split list is
`[""]`). -/
def cfgDemo : Config := ⟨"/var/repos", ""⟩

/-- Test fixture: allow-list configured as `alpha`. -/
def cfgAlpha : Config := ⟨"/var/repos", "alpha"⟩

/-- Test fixture: allow-list configured as `alpha, beta` (note the
space after the comma). -/
def cfgAlphaBeta : Config := ⟨"/var/repos", "alpha, beta"⟩

/-- Test fixture: a commit-and-push request body
(`repo_name=demo, commit_message=fix`). -/
def dataFix : RequestData := ⟨some "demo", none, some "fix", none, none⟩

/-- Test fixture: a full-workflow request body
(`repo_name=demo, prompt=p, commit_message=fix`). -/
def dataFull : RequestData := ⟨some "demo", some "p", some "fix", none, none⟩

/-- Test fixture: request naming repository `beta`. -/
def dataBeta : RequestData := ⟨some "beta", some "p", some "m", none, none⟩

/-- Test fixture: request naming repository ` beta` (leading space). -/
def dataSpaceBeta : RequestData :=
  ⟨some " beta", some "p", some "m", none, none⟩

/-- Test world: every path exists and every command exits 0. -/
def wAllOk : World := ⟨fun _ => true, fun _ _ => .completed 0 "done" ""⟩

/-- Test world: every path exists and every command exits 1. -/
def wAllFail : World := ⟨fun _ => true, fun _ _ => .completed 1 "" "boom"⟩

/-- Test world: `git add` exits 1, everything else exits 0. -/
def wAddFails : World :=
  ⟨fun _ => true,
   fun _ cmd =>
     if cmd[1]? == some "add" then .completed 1 "" "add error"
     else .completed 0 "" ""⟩

/-- Test world: `git commit` exits 1 with stderr `nothing to commit`,
everything else exits 0. -/
def wCommitFails : World :=
  ⟨fun _ => true,
   fun _ cmd =>
     if cmd[1]? == some "commit" then .completed 1 "" "nothing to commit"
     else .completed 0 "" ""⟩

/-- Test world: `git push` exits 1, everything else exits 0. -/
def wPushFails : World :=
  ⟨fun _ => true,
   fun _ cmd =>
     if cmd[1]? == some "push" then .completed 1 "" "push error"
     else .completed 0 "" ""⟩

/-- Test world: the assistant invocation (`gh ...`) exits 1 with stderr
`copilot error`, everything else exits 0. -/
def wCopilotFails : World :=
  ⟨fun _ => true,
   fun _ cmd =>
     if cmd.head? == some "gh" then .completed 1 "" "copilot error"
     else .completed 0 "" ""⟩

/-- Test world: no path exists. -/
def wNoRepo : World := ⟨fun _ => false, fun _ _ => .completed 0 "" ""⟩

/-- Test world: every path exists except `/var/repos/demo/.git`. -/
def wNoGit : World :=
  ⟨fun p => !(p == "/var/repos/demo/.git"), fun _ _ => .completed 0 "" ""⟩

theorem isOk_iff (e : Except String Unit) : isOk e = true ↔ e = .ok () := by
  cases e with
  | error m => simp [isOk]
  | ok u => cases u; simp [isOk]

theorem spawned_nil : spawned [] = [] := rfl

theorem spawned_append (a b : List Effect) :
    spawned (a ++ b) = spawned a ++ spawned b := by
  simp [spawned]

theorem spawned_pathCheck (p : String) (l : List Effect) :
    spawned (.pathCheck p :: l) = spawned l := rfl

theorem spawned_spawn (c : List String) (l : List Effect) :
    spawned (.spawn c :: l) = c :: spawned l := rfl

theorem validate_repo_no_spawn (w : World) (p : String) :
    spawned (validate_repo w p).2 = [] := by
  unfold validate_repo
  by_cases h1 : w.exists_path p
  · by_cases h2 : w.exists_path (pathJoin p ".git") <;> simp [h1, h2, spawned]
  · simp [h1, spawned]

theorem cp_of_validate_error (cfg : Config) (w : World) (data : RequestData)
    (msg : String)
    (h : validate_request (ALLOWED_REPOS cfg.allowedEnv) data = .error msg) :
    commit_and_push cfg w data = (⟨400, .errorOnly msg⟩, []) := by
  simp [commit_and_push, h]

theorem cp_of_no_commit_message (cfg : Config) (w : World)
    (data : RequestData)
    (hv : validate_request (ALLOWED_REPOS cfg.allowedEnv) data = .ok ())
    (hm : pyTruthy data.commit_message = false) :
    commit_and_push cfg w data =
      (⟨400, .errorOnly "commit_message is required"⟩, []) := by
  simp [commit_and_push, hv, hm]

theorem cp_of_repo_error (cfg : Config) (w : World) (data : RequestData)
    (msg : String)
    (hv : validate_request (ALLOWED_REPOS cfg.allowedEnv) data = .ok ())
    (hm : pyTruthy data.commit_message = true)
    (hr : (validate_repo w (repoPath cfg data)).1 = .error msg) :
    commit_and_push cfg w data =
      (⟨500, .errorOnly msg⟩, (validate_repo w (repoPath cfg data)).2) := by
  simp only [repoPath] at hr
  simp [commit_and_push, hv, hm, hr, repoPath]

theorem cp_of_add_fail (cfg : Config) (w : World) (data : RequestData)
    (hv : validate_request (ALLOWED_REPOS cfg.allowedEnv) data = .ok ())
    (hm : pyTruthy data.commit_message = true)
    (hr : (validate_repo w (repoPath cfg data)).1 = .ok ())
    (ha : (addResult cfg w data).success = false) :
    commit_and_push cfg w data =
      (⟨500, .errorDetails "Failed to stage files"
          (addResult cfg w data).stderr⟩,
       (validate_repo w (repoPath cfg data)).2
         ++ [.spawn (git_add_command data.files)]) := by
  simp only [addResult, repoPath] at ha
  simp only [repoPath] at hr
  simp [commit_and_push, hv, hm, hr, ha, addResult, repoPath]

theorem cp_of_commit_fail (cfg : Config) (w : World) (data : RequestData)
    (hv : validate_request (ALLOWED_REPOS cfg.allowedEnv) data = .ok ())
    (hm : pyTruthy data.commit_message = true)
    (hr : (validate_repo w (repoPath cfg data)).1 = .ok ())
    (ha : (addResult cfg w data).success = true)
    (hc : (commitResult cfg w data).success = false) :
    commit_and_push cfg w data =
      (⟨500, .errorDetails "Failed to commit"
          (commitResult cfg w data).stderr⟩,
       (validate_repo w (repoPath cfg data)).2
         ++ [.spawn (git_add_command data.files),
             .spawn (git_commit_command (optStr data.commit_message))]) := by
  simp only [addResult, repoPath] at ha
  simp only [commitResult, repoPath] at hc
  simp only [repoPath] at hr
  simp [commit_and_push, hv, hm, hr, ha, hc, commitResult, repoPath]

theorem cp_of_push_fail (cfg : Config) (w : World) (data : RequestData)
    (hv : validate_request (ALLOWED_REPOS cfg.allowedEnv) data = .ok ())
    (hm : pyTruthy data.commit_message = true)
    (hr : (validate_repo w (repoPath cfg data)).1 = .ok ())
    (ha : (addResult cfg w data).success = true)
    (hc : (commitResult cfg w data).success = true)
    (hp : (pushResult cfg w data).success = false) :
    commit_and_push cfg w data =
      (⟨500, .errorDetails "Failed to push" (pushResult cfg w data).stderr⟩,
       (validate_repo w (repoPath cfg data)).2
         ++ [.spawn (git_add_command data.files),
             .spawn (git_commit_command (optStr data.commit_message)),
             .spawn (git_push_command data.branch "origin")]) := by
  simp only [addResult, repoPath] at ha
  simp only [commitResult, repoPath] at hc
  simp only [pushResult, repoPath] at hp
  simp only [repoPath] at hr
  simp [commit_and_push, hv, hm, hr, ha, hc, hp, pushResult, repoPath]

theorem cp_of_all_ok (cfg : Config) (w : World) (data : RequestData)
    (hv : validate_request (ALLOWED_REPOS cfg.allowedEnv) data = .ok ())
    (hm : pyTruthy data.commit_message = true)
    (hr : (validate_repo w (repoPath cfg data)).1 = .ok ())
    (ha : (addResult cfg w data).success = true)
    (hc : (commitResult cfg w data).success = true)
    (hp : (pushResult cfg w data).success = true) :
    commit_and_push cfg w data =
      (⟨200, .commitPushOk (addResult cfg w data).stdout
          (commitResult cfg w data).stdout (pushResult cfg w data).stdout⟩,
       (validate_repo w (repoPath cfg data)).2
         ++ [.spawn (git_add_command data.files),
             .spawn (git_commit_command (optStr data.commit_message)),
             .spawn (git_push_command data.branch "origin")]) := by
  simp only [addResult, repoPath] at ha
  simp only [commitResult, repoPath] at hc
  simp only [pushResult, repoPath] at hp
  simp only [repoPath] at hr
  simp [commit_and_push, hv, hm, hr, ha, hc, hp, addResult, commitResult,
    pushResult, repoPath]

theorem wf_of_validate_error (cfg : Config) (w : World) (data : RequestData)
    (msg : String)
    (h : validate_request (ALLOWED_REPOS cfg.allowedEnv) data = .error msg) :
    copilot_commit_push_workflow cfg w data = (⟨400, .errorOnly msg⟩, []) := by
  simp [copilot_commit_push_workflow, h]

theorem wf_of_no_prompt (cfg : Config) (w : World) (data : RequestData)
    (hv : validate_request (ALLOWED_REPOS cfg.allowedEnv) data = .ok ())
    (hp : pyTruthy data.prompt = false) :
    copilot_commit_push_workflow cfg w data =
      (⟨400, .errorOnly "prompt is required"⟩, []) := by
  simp [copilot_commit_push_workflow, hv, hp]

theorem wf_of_no_commit_message (cfg : Config) (w : World)
    (data : RequestData)
    (hv : validate_request (ALLOWED_REPOS cfg.allowedEnv) data = .ok ())
    (hp : pyTruthy data.prompt = true)
    (hm : pyTruthy data.commit_message = false) :
    copilot_commit_push_workflow cfg w data =
      (⟨400, .errorOnly "commit_message is required"⟩, []) := by
  simp [copilot_commit_push_workflow, hv, hp, hm]

theorem wf_of_repo_error (cfg : Config) (w : World) (data : RequestData)
    (msg : String)
    (hv : validate_request (ALLOWED_REPOS cfg.allowedEnv) data = .ok ())
    (hp : pyTruthy data.prompt = true)
    (hm : pyTruthy data.commit_message = true)
    (hr : (validate_repo w (repoPath cfg data)).1 = .error msg) :
    copilot_commit_push_workflow cfg w data =
      (⟨500, .errorOnly msg⟩, (validate_repo w (repoPath cfg data)).2) := by
  simp only [repoPath] at hr
  simp [copilot_commit_push_workflow, hv, hp, hm, hr, repoPath]

theorem wf_of_copilot_fail (cfg : Config) (w : World) (data : RequestData)
    (hv : validate_request (ALLOWED_REPOS cfg.allowedEnv) data = .ok ())
    (hp : pyTruthy data.prompt = true)
    (hm : pyTruthy data.commit_message = true)
    (hr : (validate_repo w (repoPath cfg data)).1 = .ok ())
    (hg : (copilotResult cfg w data).success = false) :
    copilot_commit_push_workflow cfg w data =
      (⟨500, .errorDetailsResults "Copilot execution failed"
          (copilotResult cfg w data).stderr
          [("copilot", copilotResult cfg w data)]⟩,
       (validate_repo w (repoPath cfg data)).2
         ++ [.spawn (copilot_command (optStr data.prompt) data.files)]) := by
  simp only [copilotResult, repoPath] at hg
  simp only [repoPath] at hr
  simp [copilot_commit_push_workflow, hv, hp, hm, hr, hg, copilotResult,
    repoPath]

theorem wf_of_add_fail (cfg : Config) (w : World) (data : RequestData)
    (hv : validate_request (ALLOWED_REPOS cfg.allowedEnv) data = .ok ())
    (hp : pyTruthy data.prompt = true)
    (hm : pyTruthy data.commit_message = true)
    (hr : (validate_repo w (repoPath cfg data)).1 = .ok ())
    (hg : (copilotResult cfg w data).success = true)
    (ha : (addResult cfg w data).success = false) :
    copilot_commit_push_workflow cfg w data =
      (⟨500, .errorDetailsResults "Failed to stage files"
          (addResult cfg w data).stderr
          [("copilot", copilotResult cfg w data),
           ("add", addResult cfg w data)]⟩,
       (validate_repo w (repoPath cfg data)).2
         ++ [.spawn (copilot_command (optStr data.prompt) data.files),
             .spawn (git_add_command data.files)]) := by
  simp only [copilotResult, repoPath] at hg
  simp only [addResult, repoPath] at ha
  simp only [repoPath] at hr
  simp [copilot_commit_push_workflow, hv, hp, hm, hr, hg, ha, copilotResult,
    addResult, repoPath]

theorem wf_of_commit_fail (cfg : Config) (w : World) (data : RequestData)
    (hv : validate_request (ALLOWED_REPOS cfg.allowedEnv) data = .ok ())
    (hp : pyTruthy data.prompt = true)
    (hm : pyTruthy data.commit_message = true)
    (hr : (validate_repo w (repoPath cfg data)).1 = .ok ())
    (hg : (copilotResult cfg w data).success = true)
    (ha : (addResult cfg w data).success = true)
    (hc : (commitResult cfg w data).success = false) :
    copilot_commit_push_workflow cfg w data =
      (⟨500, .errorDetailsResults "Failed to commit"
          (commitResult cfg w data).stderr
          [("copilot", copilotResult cfg w data),
           ("add", addResult cfg w data),
           ("commit", commitResult cfg w data)]⟩,
       (validate_repo w (repoPath cfg data)).2
         ++ [.spawn (copilot_command (optStr data.prompt) data.files),
             .spawn (git_add_command data.files),
             .spawn (git_commit_command (optStr data.commit_message))]) := by
  simp only [copilotResult, repoPath] at hg
  simp only [addResult, repoPath] at ha
  simp only [commitResult, repoPath] at hc
  simp only [repoPath] at hr
  simp [copilot_commit_push_workflow, hv, hp, hm, hr, hg, ha, hc,
    copilotResult, addResult, commitResult, repoPath]

theorem wf_of_push_fail (cfg : Config) (w : World) (data : RequestData)
    (hv : validate_request (ALLOWED_REPOS cfg.allowedEnv) data = .ok ())
    (hp : pyTruthy data.prompt = true)
    (hm : pyTruthy data.commit_message = true)
    (hr : (validate_repo w (repoPath cfg data)).1 = .ok ())
    (hg : (copilotResult cfg w data).success = true)
    (ha : (addResult cfg w data).success = true)
    (hc : (commitResult cfg w data).success = true)
    (hq : (pushResult cfg w data).success = false) :
    copilot_commit_push_workflow cfg w data =
      (⟨500, .errorDetailsResults "Failed to push"
          (pushResult cfg w data).stderr
          [("copilot", copilotResult cfg w data),
           ("add", addResult cfg w data),
           ("commit", commitResult cfg w data),
           ("push", pushResult cfg w data)]⟩,
       (validate_repo w (repoPath cfg data)).2
         ++ [.spawn (copilot_command (optStr data.prompt) data.files),
             .spawn (git_add_command data.files),
             .spawn (git_commit_command (optStr data.commit_message)),
             .spawn (git_push_command data.branch "origin")]) := by
  simp only [copilotResult, repoPath] at hg
  simp only [addResult, repoPath] at ha
  simp only [commitResult, repoPath] at hc
  simp only [pushResult, repoPath] at hq
  simp only [repoPath] at hr
  simp [copilot_commit_push_workflow, hv, hp, hm, hr, hg, ha, hc, hq,
    copilotResult, addResult, commitResult, pushResult, repoPath]

theorem wf_of_all_ok (cfg : Config) (w : World) (data : RequestData)
    (hv : validate_request (ALLOWED_REPOS cfg.allowedEnv) data = .ok ())
    (hp : pyTruthy data.prompt = true)
    (hm : pyTruthy data.commit_message = true)
    (hr : (validate_repo w (repoPath cfg data)).1 = .ok ())
    (hg : (copilotResult cfg w data).success = true)
    (ha : (addResult cfg w data).success = true)
    (hc : (commitResult cfg w data).success = true)
    (hq : (pushResult cfg w data).success = true) :
    copilot_commit_push_workflow cfg w data =
      (⟨200, .workflowOk
          [("copilot", copilotResult cfg w data),
           ("add", addResult cfg w data),
           ("commit", commitResult cfg w data),
           ("push", pushResult cfg w data)]⟩,
       (validate_repo w (repoPath cfg data)).2
         ++ [.spawn (copilot_command (optStr data.prompt) data.files),
             .spawn (git_add_command data.files),
             .spawn (git_commit_command (optStr data.commit_message)),
             .spawn (git_push_command data.branch "origin")]) := by
  simp only [copilotResult, repoPath] at hg
  simp only [addResult, repoPath] at ha
  simp only [commitResult, repoPath] at hc
  simp only [pushResult, repoPath] at hq
  simp only [repoPath] at hr
  simp [copilot_commit_push_workflow, hv, hp, hm, hr, hg, ha, hc, hq,
    copilotResult, addResult, commitResult, pushResult, repoPath]

theorem ex_of_validate_error (cfg : Config) (w : World) (data : RequestData)
    (msg : String)
    (h : validate_request (ALLOWED_REPOS cfg.allowedEnv) data = .error msg) :
    execute_copilot_route cfg w data = (⟨400, .errorOnly msg⟩, []) := by
  simp [execute_copilot_route, h]

theorem ex_of_no_prompt (cfg : Config) (w : World) (data : RequestData)
    (hv : validate_request (ALLOWED_REPOS cfg.allowedEnv) data = .ok ())
    (hp : pyTruthy data.prompt = false) :
    execute_copilot_route cfg w data =
      (⟨400, .errorOnly "prompt is required"⟩, []) := by
  simp [execute_copilot_route, hv, hp]

theorem ex_of_repo_error (cfg : Config) (w : World) (data : RequestData)
    (msg : String)
    (hv : validate_request (ALLOWED_REPOS cfg.allowedEnv) data = .ok ())
    (hp : pyTruthy data.prompt = true)
    (hr : (validate_repo w (repoPath cfg data)).1 = .error msg) :
    execute_copilot_route cfg w data =
      (⟨500, .errorOnly msg⟩, (validate_repo w (repoPath cfg data)).2) := by
  simp only [repoPath] at hr
  simp [execute_copilot_route, hv, hp, hr, repoPath]

theorem ex_of_reach (cfg : Config) (w : World) (data : RequestData)
    (hv : validate_request (ALLOWED_REPOS cfg.allowedEnv) data = .ok ())
    (hp : pyTruthy data.prompt = true)
    (hr : (validate_repo w (repoPath cfg data)).1 = .ok ()) :
    execute_copilot_route cfg w data =
      (⟨200, .executeOk (copilotResult cfg w data).success
          (copilotResult cfg w data).stdout
          (copilotResult cfg w data).stderr
          (statusResult cfg w data).stdout⟩,
       (validate_repo w (repoPath cfg data)).2
         ++ [.spawn (copilot_command (optStr data.prompt) data.files),
             .spawn git_status_command]) := by
  simp only [repoPath] at hr
  simp [execute_copilot_route, hv, hp, hr, copilotResult, statusResult,
    repoPath]

theorem cp_spawned_eq (cfg : Config) (w : World) (data : RequestData) :
    spawned (commit_and_push cfg w data).2 =
      (if cpReaches cfg w data = true then
        (if (addResult cfg w data).success = false then
          [git_add_command data.files]
        else if (commitResult cfg w data).success = false then
          [git_add_command data.files,
           git_commit_command (optStr data.commit_message)]
        else
          [git_add_command data.files,
           git_commit_command (optStr data.commit_message),
           git_push_command data.branch "origin"])
      else []) := by
  cases hv : validate_request (ALLOWED_REPOS cfg.allowedEnv) data with
  | error msg =>
      rw [cp_of_validate_error cfg w data msg hv]
      simp [cpReaches, hv, isOk, spawned]
  | ok u =>
      cases u
      cases hm : pyTruthy data.commit_message with
      | false =>
          rw [cp_of_no_commit_message cfg w data hv hm]
          simp [cpReaches, hv, hm, isOk, spawned]
      | true =>
          cases hr : (validate_repo w (repoPath cfg data)).1 with
          | error msg =>
              rw [cp_of_repo_error cfg w data msg hv hm hr]
              simp [cpReaches, hv, hm, hr, isOk, validate_repo_no_spawn]
          | ok u2 =>
              cases u2
              have hreach : cpReaches cfg w data = true := by
                simp [cpReaches, hv, hm, hr, isOk]
              cases ha : (addResult cfg w data).success with
              | false =>
                  rw [cp_of_add_fail cfg w data hv hm hr ha]
                  simp [hreach, ha, validate_repo_no_spawn, spawned_append,
                    spawned_spawn, spawned_nil]
              | true =>
                  cases hc : (commitResult cfg w data).success with
                  | false =>
                      rw [cp_of_commit_fail cfg w data hv hm hr ha hc]
                      simp [hreach, ha, hc, validate_repo_no_spawn,
                        spawned_append, spawned_spawn, spawned_nil]
                  | true =>
                      cases hq : (pushResult cfg w data).success with
                      | false =>
                          rw [cp_of_push_fail cfg w data hv hm hr ha hc hq]
                          simp [hreach, ha, hc, validate_repo_no_spawn,
                            spawned_append, spawned_spawn, spawned_nil]
                      | true =>
                          rw [cp_of_all_ok cfg w data hv hm hr ha hc hq]
                          simp [hreach, ha, hc, validate_repo_no_spawn,
                            spawned_append, spawned_spawn, spawned_nil]

theorem wf_spawned_eq (cfg : Config) (w : World) (data : RequestData) :
    spawned (copilot_commit_push_workflow cfg w data).2 =
      (if wfReaches cfg w data = true then
        (if (copilotResult cfg w data).success = false then
          [copilot_command (optStr data.prompt) data.files]
        else if (addResult cfg w data).success = false then
          [copilot_command (optStr data.prompt) data.files,
           git_add_command data.files]
        else if (commitResult cfg w data).success = false then
          [copilot_command (optStr data.prompt) data.files,
           git_add_command data.files,
           git_commit_command (optStr data.commit_message)]
        else
          [copilot_command (optStr data.prompt) data.files,
           git_add_command data.files,
           git_commit_command (optStr data.commit_message),
           git_push_command data.branch "origin"])
      else []) := by
  cases hv : validate_request (ALLOWED_REPOS cfg.allowedEnv) data with
  | error msg =>
      rw [wf_of_validate_error cfg w data msg hv]
      simp [wfReaches, hv, isOk, spawned]
  | ok u =>
      cases u
      cases hp : pyTruthy data.prompt with
      | false =>
          rw [wf_of_no_prompt cfg w data hv hp]
          simp [wfReaches, hv, hp, isOk, spawned]
      | true =>
          cases hm : pyTruthy data.commit_message with
          | false =>
              rw [wf_of_no_commit_message cfg w data hv hp hm]
              simp [wfReaches, hv, hp, hm, isOk, spawned]
          | true =>
              cases hr : (validate_repo w (repoPath cfg data)).1 with
              | error msg =>
                  rw [wf_of_repo_error cfg w data msg hv hp hm hr]
                  simp [wfReaches, hv, hp, hm, hr, isOk,
                    validate_repo_no_spawn]
              | ok u2 =>
                  cases u2
                  have hreach : wfReaches cfg w data = true := by
                    simp [wfReaches, hv, hp, hm, hr, isOk]
                  cases hg : (copilotResult cfg w data).success with
                  | false =>
                      rw [wf_of_copilot_fail cfg w data hv hp hm hr hg]
                      simp [hreach, hg, validate_repo_no_spawn,
                        spawned_append, spawned_spawn, spawned_nil]
                  | true =>
                      cases ha : (addResult cfg w data).success with
                      | false =>
                          rw [wf_of_add_fail cfg w data hv hp hm hr hg ha]
                          simp [hreach, hg, ha, validate_repo_no_spawn,
                            spawned_append, spawned_spawn, spawned_nil]
                      | true =>
                          cases hc : (commitResult cfg w data).success with
                          | false =>
                              rw [wf_of_commit_fail cfg w data hv hp hm hr
                                hg ha hc]
                              simp [hreach, hg, ha, hc,
                                validate_repo_no_spawn, spawned_append,
                                spawned_spawn, spawned_nil]
                          | true =>
                              cases hq : (pushResult cfg w data).success with
                              | false =>
                                  rw [wf_of_push_fail cfg w data hv hp hm hr
                                    hg ha hc hq]
                                  simp [hreach, hg, ha, hc,
                                    validate_repo_no_spawn, spawned_append,
                                    spawned_spawn, spawned_nil]
                              | true =>
                                  rw [wf_of_all_ok cfg w data hv hp hm hr
                                    hg ha hc hq]
                                  simp [hreach, hg, ha, hc,
                                    validate_repo_no_spawn, spawned_append,
                                    spawned_spawn, spawned_nil]

theorem git_add_command_verb (files : Option (List String)) :
    (git_add_command files)[1]? = some "add" := by
  unfold git_add_command
  split <;> simp

theorem git_commit_command_verb (m : String) :
    (git_commit_command m)[1]? = some "commit" := rfl

theorem git_push_command_verb (b : Option String) (r : String) :
    (git_push_command b r)[1]? = some "push" := by
  unfold git_push_command
  split <;> rfl

theorem copilot_command_head (p : String) (f : Option (List String)) :
    (copilot_command p f).head? = some "gh" := by
  unfold copilot_command
  split <;> rfl

/-- Claim C2: `run_command` reports `success = true` exactly when the
process exit code is 0: for a completed process `success ↔ returncode =
0`, and the timeout and launch-failure paths (reserved exit code -1)
always report `success = false`; over every outcome, `success = true ↔
returncode = 0`. -/
theorem C2_success_iff_exit_zero :
    (∀ rc out err,
      ((run_command (.completed rc out err)).success = true ↔ rc = 0)
      ∧ (run_command (.completed rc out err)).returncode = rc)
    ∧ ((run_command .timedOut).success = false
       ∧ (run_command .timedOut).returncode = -1)
    ∧ (∀ msg, (run_command (.launchError msg)).success = false
       ∧ (run_command (.launchError msg)).returncode = -1)
    ∧ (∀ outcome,
      ((run_command outcome).success = true
        ↔ (run_command outcome).returncode = 0)) := by
  refine ⟨?_, ⟨rfl, rfl⟩, fun msg => ⟨rfl, rfl⟩, ?_⟩
  · intro rc out err
    exact ⟨by simp [run_command], rfl⟩
  · intro outcome
    cases outcome <;> simp [run_command]

/-- Claim C5: a timed-out command yields a returned (not raised) result
with `success = false`, `exit code = -1`, and a non-empty stderr whose
first 23 characters read `Command timed out after` (the full message is
`Command timed out after 5 minutes`, for the fixed 5-minute timeout). -/
theorem C5_timeout_result :
    (run_command .timedOut).success = false
    ∧ (run_command .timedOut).returncode = -1
    ∧ (run_command .timedOut).stderr = "Command timed out after 5 minutes"
    ∧ (run_command .timedOut).stderr ≠ ""
    ∧ (run_command .timedOut).stderr.data.take 23 =
        "Command timed out after".data := by
  refine ⟨rfl, rfl, rfl, ?_, ?_⟩ <;> decide

/-- Claim C6: a command that cannot be launched (the `except Exception`
path) never propagates the exception: `run_command` is a total function
that, on a launch error, returns `success = false`, `exit code = -1`
and stderr equal to the launch error's message. -/
theorem C6_launch_error_result (msg : String) :
    run_command (.launchError msg) =
      { success := false, stdout := "", stderr := msg, returncode := -1 } :=
  rfl

/-- Claim C1: both multi-step workflows short-circuit: the spawned-command
trace of commit-and-push stops at a failing stage (no commit or push
command is launched after a staging failure, no push after a commit
failure), and the trace of the full workflow stops at a failing
generation (no git command at all is launched after a generation
failure), staging failure, or commit failure.  The final conjuncts pin
the step commands apart: the element at index 1 of a stage/commit/push
command is `add`/`commit`/`push` respectively, and the assistant command
starts with `gh`, so the enumerated traces indeed contain no later
step's command. -/
theorem C1_short_circuit (cfg : Config) (w : World) (data : RequestData) :
    ((addResult cfg w data).success = false →
      spawned (commit_and_push cfg w data).2 =
        (if cpReaches cfg w data = true then [git_add_command data.files]
         else []))
    ∧ ((addResult cfg w data).success = true →
       (commitResult cfg w data).success = false →
      spawned (commit_and_push cfg w data).2 =
        (if cpReaches cfg w data = true then
          [git_add_command data.files,
           git_commit_command (optStr data.commit_message)]
         else []))
    ∧ ((copilotResult cfg w data).success = false →
      spawned (copilot_commit_push_workflow cfg w data).2 =
        (if wfReaches cfg w data = true then
          [copilot_command (optStr data.prompt) data.files]
         else []))
    ∧ ((copilotResult cfg w data).success = true →
       (addResult cfg w data).success = false →
      spawned (copilot_commit_push_workflow cfg w data).2 =
        (if wfReaches cfg w data = true then
          [copilot_command (optStr data.prompt) data.files,
           git_add_command data.files]
         else []))
    ∧ ((copilotResult cfg w data).success = true →
       (addResult cfg w data).success = true →
       (commitResult cfg w data).success = false →
      spawned (copilot_commit_push_workflow cfg w data).2 =
        (if wfReaches cfg w data = true then
          [copilot_command (optStr data.prompt) data.files,
           git_add_command data.files,
           git_commit_command (optStr data.commit_message)]
         else []))
    ∧ (∀ fs, (git_add_command fs)[1]? = some "add")
    ∧ (∀ m, (git_commit_command m)[1]? = some "commit")
    ∧ (∀ b r, (git_push_command b r)[1]? = some "push")
    ∧ (∀ p f, (copilot_command p f).head? = some "gh") := by
  refine ⟨?_, ?_, ?_, ?_, ?_, git_add_command_verb, git_commit_command_verb,
    git_push_command_verb, copilot_command_head⟩
  · intro ha
    rw [cp_spawned_eq]
    simp [ha]
  · intro ha hc
    rw [cp_spawned_eq]
    simp [ha, hc]
  · intro hg
    rw [wf_spawned_eq]
    simp [hg]
  · intro hg ha
    rw [wf_spawned_eq]
    simp [hg, ha]
  · intro hg ha hc
    rw [wf_spawned_eq]
    simp [hg, ha, hc]

/-- Witness for C1: concrete worlds in which the staging step fails in
commit-and-push, the commit step fails in commit-and-push, and the
generation, staging and commit steps fail in the full workflow,
instantiating each conjunct of the theorem. -/
theorem C1_short_circuit_witness :
    (spawned (commit_and_push cfgDemo wAllFail dataFix).2 =
      (if cpReaches cfgDemo wAllFail dataFix = true then
        [git_add_command dataFix.files] else []))
    ∧ (spawned (commit_and_push cfgDemo wCommitFails dataFix).2 =
      (if cpReaches cfgDemo wCommitFails dataFix = true then
        [git_add_command dataFix.files,
         git_commit_command (optStr dataFix.commit_message)] else []))
    ∧ (spawned (copilot_commit_push_workflow cfgDemo wCopilotFails
        dataFull).2 =
      (if wfReaches cfgDemo wCopilotFails dataFull = true then
        [copilot_command (optStr dataFull.prompt) dataFull.files] else []))
    ∧ (spawned (copilot_commit_push_workflow cfgDemo wAddFails dataFull).2 =
      (if wfReaches cfgDemo wAddFails dataFull = true then
        [copilot_command (optStr dataFull.prompt) dataFull.files,
         git_add_command dataFull.files] else []))
    ∧ (spawned (copilot_commit_push_workflow cfgDemo wCommitFails
        dataFull).2 =
      (if wfReaches cfgDemo wCommitFails dataFull = true then
        [copilot_command (optStr dataFull.prompt) dataFull.files,
         git_add_command dataFull.files,
         git_commit_command (optStr dataFull.commit_message)] else [])) :=
  ⟨(C1_short_circuit cfgDemo wAllFail dataFix).1 (by decide),
   (C1_short_circuit cfgDemo wCommitFails dataFix).2.1 (by decide)
     (by decide),
   (C1_short_circuit cfgDemo wCopilotFails dataFull).2.2.1 (by decide),
   (C1_short_circuit cfgDemo wAddFails dataFull).2.2.2.1 (by decide)
     (by decide),
   (C1_short_circuit cfgDemo wCommitFails dataFull).2.2.2.2.1 (by decide)
     (by decide) (by decide)⟩

theorem ex_no_spawn_of_repo_invalid (cfg : Config) (w : World)
    (data : RequestData)
    (h : isOk (validate_repo w (repoPath cfg data)).1 = false) :
    spawned (execute_copilot_route cfg w data).2 = [] := by
  cases hv : validate_request (ALLOWED_REPOS cfg.allowedEnv) data with
  | error msg =>
      rw [ex_of_validate_error cfg w data msg hv]
      rfl
  | ok u =>
      cases u
      cases hp : pyTruthy data.prompt with
      | false =>
          rw [ex_of_no_prompt cfg w data hv hp]
          rfl
      | true =>
          cases hr : (validate_repo w (repoPath cfg data)).1 with
          | error msg =>
              rw [ex_of_repo_error cfg w data msg hv hp hr]
              exact validate_repo_no_spawn w (repoPath cfg data)
          | ok u2 =>
              cases u2
              rw [hr] at h
              simp [isOk] at h

/-- Claim C7: `validate_repo` checks path existence first (a missing
path yields the not-found error after a single existence check, without
ever looking for `.git`), then `.git` existence; the two failure
messages are distinct for every path; and whenever repository
validation fails for a request, none of the three endpoints spawns any
subprocess. -/
theorem C7_validate_repo_checks (w : World) (p : String) :
    (w.exists_path p = false →
      validate_repo w p =
        (.error ("Repository path does not exist: " ++ p),
         [.pathCheck p]))
    ∧ (w.exists_path p = true →
       w.exists_path (pathJoin p ".git") = false →
      validate_repo w p =
        (.error ("Not a git repository: " ++ p),
         [.pathCheck p, .pathCheck (pathJoin p ".git")]))
    ∧ ("Repository path does not exist: " ++ p ≠
        "Not a git repository: " ++ p)
    ∧ (∀ cfg w2 data, isOk (validate_repo w2 (repoPath cfg data)).1 = false →
        spawned (commit_and_push cfg w2 data).2 = []
        ∧ spawned (execute_copilot_route cfg w2 data).2 = []
        ∧ spawned (copilot_commit_push_workflow cfg w2 data).2 = []) := by
  refine ⟨?_, ?_, ?_, ?_⟩
  · intro h1
    simp [validate_repo, h1]
  · intro h1 h2
    simp [validate_repo, h1, h2]
  · intro h
    have h2 := congrArg String.length h
    rw [String.length_append, String.length_append] at h2
    have e1 : ("Repository path does not exist: " : String).length = 32 := rfl
    have e2 : ("Not a git repository: " : String).length = 22 := rfl
    rw [e1, e2] at h2
    omega
  · intro cfg w2 data h
    have hcp : cpReaches cfg w2 data = false := by
      simp [cpReaches, h]
    have hwf : wfReaches cfg w2 data = false := by
      simp [wfReaches, h]
    refine ⟨?_, ex_no_spawn_of_repo_invalid cfg w2 data h, ?_⟩
    · rw [cp_spawned_eq]
      simp [hcp]
    · rw [wf_spawned_eq]
      simp [hwf]

/-- Witness for C7: a world with no paths gives the not-found error and
a single existence check; a world lacking only `/var/repos/demo/.git`
gives the not-a-git-repository error; the two messages differ for the
path `/var/repos/demo`; and with the missing repository neither
endpoint spawns a subprocess. -/
theorem C7_validate_repo_checks_witness :
    (validate_repo wNoRepo "/var/repos/demo" =
      (.error "Repository path does not exist: /var/repos/demo",
       [.pathCheck "/var/repos/demo"]))
    ∧ (validate_repo wNoGit "/var/repos/demo" =
      (.error "Not a git repository: /var/repos/demo",
       [.pathCheck "/var/repos/demo",
        .pathCheck (pathJoin "/var/repos/demo" ".git")]))
    ∧ ("Repository path does not exist: " ++ "/var/repos/demo" ≠
        "Not a git repository: " ++ "/var/repos/demo")
    ∧ (spawned (commit_and_push cfgDemo wNoRepo dataFull).2 = []
       ∧ spawned (execute_copilot_route cfgDemo wNoRepo dataFull).2 = []
       ∧ spawned (copilot_commit_push_workflow cfgDemo wNoRepo
           dataFull).2 = []) :=
  ⟨by
    have h := (C7_validate_repo_checks wNoRepo "/var/repos/demo").1
      (by decide)
    simpa using h,
   by
    have h := (C7_validate_repo_checks wNoGit "/var/repos/demo").2.1
      (by decide) (by decide)
    simpa using h,
   (C7_validate_repo_checks wNoRepo "/var/repos/demo").2.2.1,
   (C7_validate_repo_checks wNoRepo "/var/repos/demo").2.2.2 cfgDemo
     wNoRepo dataFull (by decide)⟩

/-- Counterexample to C8 as stated: the allow-list `,alpha` is
configured and non-empty (its segments are `""` and `"alpha"`, so it
permits `alpha`), and `beta` is not among its segments — yet because
the first segment is empty the line-133 guard
(`ALLOWED_REPOS and ALLOWED_REPOS[0]`) never fires: `validate_request`
accepts `repo_name = beta`, the endpoint does not answer 400, the
repository path is resolved and checked on the filesystem, and
subprocesses are launched.  A leading comma silently disables the
whole allow-list. -/
theorem C8_counterexample :
    ALLOWED_REPOS ",alpha" = ["", "alpha"]
    ∧ "alpha" ∈ ALLOWED_REPOS ",alpha"
    ∧ (ALLOWED_REPOS ",alpha").contains "beta" = false
    ∧ validate_request (ALLOWED_REPOS ",alpha") dataBeta = .ok ()
    ∧ (execute_copilot_route ⟨"/var/repos", ",alpha"⟩ wAllOk
        dataBeta).1.status = 200
    ∧ (execute_copilot_route ⟨"/var/repos", ",alpha"⟩ wAllOk
        dataBeta).1.status ≠ 400
    ∧ Effect.pathCheck "/var/repos/beta" ∈
        (execute_copilot_route ⟨"/var/repos", ",alpha"⟩ wAllOk dataBeta).2
    ∧ spawned (execute_copilot_route ⟨"/var/repos", ",alpha"⟩ wAllOk
        dataBeta).2 ≠ [] := by
  refine ⟨by decide, by decide, by decide, rfl, by decide, by decide,
    by decide, by decide⟩

/-- Claim C8 as amended: when the allow-list guard of line 133 fires —
the comma-split list is non-empty AND its first segment is non-empty —
a request whose repo_name is not a member of the list is answered 400
with the not-allowed error by the pure string-membership check of
`validate_request`, and the request's effect trace is empty: no
filesystem access and no subprocess launch ever happens, on any of the
three endpoints.  (When the first segment is empty, as with a leading
comma, the guard does not fire and the allow-list is not enforced even
though it is configured and non-empty.) -/
theorem C8_allowlist_rejection (cfg : Config) (w : World)
    (data : RequestData)
    (hact : allowlistActive (ALLOWED_REPOS cfg.allowedEnv) = true)
    (hmem : (ALLOWED_REPOS cfg.allowedEnv).contains (optStr data.repo_name)
      = false)
    (hname : pyTruthy data.repo_name = true) :
    validate_request (ALLOWED_REPOS cfg.allowedEnv) data =
      .error ("Repository " ++ optStr data.repo_name ++ " is not allowed")
    ∧ commit_and_push cfg w data =
      (⟨400, .errorOnly
        ("Repository " ++ optStr data.repo_name ++ " is not allowed")⟩, [])
    ∧ execute_copilot_route cfg w data =
      (⟨400, .errorOnly
        ("Repository " ++ optStr data.repo_name ++ " is not allowed")⟩, [])
    ∧ copilot_commit_push_workflow cfg w data =
      (⟨400, .errorOnly
        ("Repository " ++ optStr data.repo_name ++ " is not allowed")⟩,
       []) := by
  have hm2 : optStr data.repo_name ∉ ALLOWED_REPOS cfg.allowedEnv := by
    simpa using hmem
  have hv : validate_request (ALLOWED_REPOS cfg.allowedEnv) data =
      .error ("Repository " ++ optStr data.repo_name ++ " is not allowed") := by
    simp [validate_request, hname, hact, hmem, hm2]
  exact ⟨hv, cp_of_validate_error cfg w data _ hv,
    ex_of_validate_error cfg w data _ hv,
    wf_of_validate_error cfg w data _ hv⟩

/-- Witness for C8: allow-list configured as `alpha`, request for
`beta`: all three endpoints answer 400 with an empty effect trace. -/
theorem C8_allowlist_rejection_witness :
    validate_request (ALLOWED_REPOS cfgAlpha.allowedEnv) dataBeta =
      .error ("Repository " ++ optStr dataBeta.repo_name
        ++ " is not allowed")
    ∧ commit_and_push cfgAlpha wAllOk dataBeta =
      (⟨400, .errorOnly ("Repository " ++ optStr dataBeta.repo_name
        ++ " is not allowed")⟩, [])
    ∧ execute_copilot_route cfgAlpha wAllOk dataBeta =
      (⟨400, .errorOnly ("Repository " ++ optStr dataBeta.repo_name
        ++ " is not allowed")⟩, [])
    ∧ copilot_commit_push_workflow cfgAlpha wAllOk dataBeta =
      (⟨400, .errorOnly ("Repository " ++ optStr dataBeta.repo_name
        ++ " is not allowed")⟩, []) :=
  C8_allowlist_rejection cfgAlpha wAllOk dataBeta (by decide) (by decide)
    (by decide)

/-- Claim C10: with the allow-list guard active, `validate_request`
accepts a (truthy) repo_name exactly when it is character-for-character
equal to one of the comma-separated segments of the configured string —
no whitespace trimming: the list configured as `alpha, beta` (note the
space) accepts ` beta` and rejects `beta`. -/
theorem C10_exact_membership :
    (∀ env data, allowlistActive (ALLOWED_REPOS env) = true →
      pyTruthy data.repo_name = true →
      (validate_request (ALLOWED_REPOS env) data = .ok ()
        ↔ optStr data.repo_name ∈ ALLOWED_REPOS env))
    ∧ ALLOWED_REPOS "alpha, beta" = ["alpha", " beta"]
    ∧ validate_request (ALLOWED_REPOS "alpha, beta") dataSpaceBeta = .ok ()
    ∧ validate_request (ALLOWED_REPOS "alpha, beta") dataBeta =
        .error "Repository beta is not allowed" := by
  refine ⟨?_, by decide, rfl, rfl⟩
  intro env data hact hname
  by_cases hc : (ALLOWED_REPOS env).contains (optStr data.repo_name) = true
  · have hm : optStr data.repo_name ∈ ALLOWED_REPOS env := by
      simpa using hc
    simp [validate_request, hname, hact, hc, hm]
  · have hc2 : (ALLOWED_REPOS env).contains (optStr data.repo_name)
        = false := by
      simpa using hc
    have hm : ¬ (optStr data.repo_name ∈ ALLOWED_REPOS env) := by
      simpa using hc
    simp [validate_request, hname, hact, hc2, hm]

/-- Witness for C10: the iff instantiated at the allow-list
`alpha, beta` and the request naming ` beta`. -/
theorem C10_exact_membership_witness :
    validate_request (ALLOWED_REPOS "alpha, beta") dataSpaceBeta = .ok ()
      ↔ optStr dataSpaceBeta.repo_name ∈ ALLOWED_REPOS "alpha, beta" :=
  C10_exact_membership.1 "alpha, beta" dataSpaceBeta (by decide) (by decide)

theorem cpReaches_iff (cfg : Config) (w : World) (data : RequestData) :
    cpReaches cfg w data = true ↔
      (validate_request (ALLOWED_REPOS cfg.allowedEnv) data = .ok ()
       ∧ pyTruthy data.commit_message = true
       ∧ (validate_repo w (repoPath cfg data)).1 = .ok ()) := by
  simp [cpReaches, Bool.and_eq_true, isOk_iff, and_assoc]

theorem wfReaches_iff (cfg : Config) (w : World) (data : RequestData) :
    wfReaches cfg w data = true ↔
      (validate_request (ALLOWED_REPOS cfg.allowedEnv) data = .ok ()
       ∧ pyTruthy data.prompt = true
       ∧ pyTruthy data.commit_message = true
       ∧ (validate_repo w (repoPath cfg data)).1 = .ok ()) := by
  simp [wfReaches, Bool.and_eq_true, isOk_iff, and_assoc]

theorem exReaches_iff (cfg : Config) (w : World) (data : RequestData) :
    exReaches cfg w data = true ↔
      (validate_request (ALLOWED_REPOS cfg.allowedEnv) data = .ok ()
       ∧ pyTruthy data.prompt = true
       ∧ (validate_repo w (repoPath cfg data)).1 = .ok ()) := by
  simp [exReaches, Bool.and_eq_true, isOk_iff, and_assoc]

theorem cp_bodySteps_cases (cfg : Config) (w : World) (data : RequestData) :
    bodySteps (commit_and_push cfg w data).1.body = []
    ∨ (commit_and_push cfg w data).1.status = 200 := by
  cases hv : validate_request (ALLOWED_REPOS cfg.allowedEnv) data with
  | error msg =>
      rw [cp_of_validate_error cfg w data msg hv]
      exact .inl rfl
  | ok u =>
      cases u
      cases hm : pyTruthy data.commit_message with
      | false =>
          rw [cp_of_no_commit_message cfg w data hv hm]
          exact .inl rfl
      | true =>
          cases hr : (validate_repo w (repoPath cfg data)).1 with
          | error msg =>
              rw [cp_of_repo_error cfg w data msg hv hm hr]
              exact .inl rfl
          | ok u2 =>
              cases u2
              cases ha : (addResult cfg w data).success with
              | false =>
                  rw [cp_of_add_fail cfg w data hv hm hr ha]
                  exact .inl rfl
              | true =>
                  cases hc : (commitResult cfg w data).success with
                  | false =>
                      rw [cp_of_commit_fail cfg w data hv hm hr ha hc]
                      exact .inl rfl
                  | true =>
                      cases hq : (pushResult cfg w data).success with
                      | false =>
                          rw [cp_of_push_fail cfg w data hv hm hr ha hc hq]
                          exact .inl rfl
                      | true =>
                          rw [cp_of_all_ok cfg w data hv hm hr ha hc hq]
                          exact .inr rfl

/-- Counterexample to C3 as stated: with every path present, staging
succeeding and the commit exiting 1 with stderr `nothing to commit`,
the commit-and-push failure response is `{'error': 'Failed to commit',
'details': 'nothing to commit'}` with status 500: the executed steps
(the successful `add`, the failing `commit`) do NOT appear in it — the
response carries no step results at all, although both steps were
executed (the spawned trace is exactly the add and commit commands). -/
theorem C3_counterexample :
    (commit_and_push cfgDemo wCommitFails dataFix).1 =
      ⟨500, .errorDetails "Failed to commit" "nothing to commit"⟩
    ∧ (addResult cfgDemo wCommitFails dataFix).success = true
    ∧ (commitResult cfgDemo wCommitFails dataFix).success = false
    ∧ spawned (commit_and_push cfgDemo wCommitFails dataFix).2 =
        [["git", "add", "-A"], ["git", "commit", "-m", "fix"]]
    ∧ bodySteps (commit_and_push cfgDemo wCommitFails dataFix).1.body = []
    ∧ "add" ∉ bodySteps (commit_and_push cfgDemo wCommitFails
        dataFix).1.body := by
  refine ⟨by decide, by decide, by decide, by decide, by decide, by decide⟩

/-- Claim C3 as amended: in the full workflow, a step failure returns
the accumulated partial `workflow_results` — exactly the executed steps
(each successful earlier step and the failing step), no unexecuted step;
in commit-and-push, a 500 failure response carries no step results at
all (only the error marker and the failing step's stderr). -/
theorem C3_partial_results (cfg : Config) (w : World) (data : RequestData) :
    (wfReaches cfg w data = true →
      ((copilotResult cfg w data).success = false →
        (copilot_commit_push_workflow cfg w data).1 =
          ⟨500, .errorDetailsResults "Copilot execution failed"
            (copilotResult cfg w data).stderr
            [("copilot", copilotResult cfg w data)]⟩)
      ∧ ((copilotResult cfg w data).success = true →
         (addResult cfg w data).success = false →
        (copilot_commit_push_workflow cfg w data).1 =
          ⟨500, .errorDetailsResults "Failed to stage files"
            (addResult cfg w data).stderr
            [("copilot", copilotResult cfg w data),
             ("add", addResult cfg w data)]⟩)
      ∧ ((copilotResult cfg w data).success = true →
         (addResult cfg w data).success = true →
         (commitResult cfg w data).success = false →
        (copilot_commit_push_workflow cfg w data).1 =
          ⟨500, .errorDetailsResults "Failed to commit"
            (commitResult cfg w data).stderr
            [("copilot", copilotResult cfg w data),
             ("add", addResult cfg w data),
             ("commit", commitResult cfg w data)]⟩)
      ∧ ((copilotResult cfg w data).success = true →
         (addResult cfg w data).success = true →
         (commitResult cfg w data).success = true →
         (pushResult cfg w data).success = false →
        (copilot_commit_push_workflow cfg w data).1 =
          ⟨500, .errorDetailsResults "Failed to push"
            (pushResult cfg w data).stderr
            [("copilot", copilotResult cfg w data),
             ("add", addResult cfg w data),
             ("commit", commitResult cfg w data),
             ("push", pushResult cfg w data)]⟩))
    ∧ ((commit_and_push cfg w data).1.status = 500 →
        bodySteps (commit_and_push cfg w data).1.body = []) := by
  constructor
  · intro hreach
    obtain ⟨hv, hp, hm, hr⟩ := (wfReaches_iff cfg w data).mp hreach
    refine ⟨?_, ?_, ?_, ?_⟩
    · intro hg
      rw [wf_of_copilot_fail cfg w data hv hp hm hr hg]
    · intro hg ha
      rw [wf_of_add_fail cfg w data hv hp hm hr hg ha]
    · intro hg ha hc
      rw [wf_of_commit_fail cfg w data hv hp hm hr hg ha hc]
    · intro hg ha hc hq
      rw [wf_of_push_fail cfg w data hv hp hm hr hg ha hc hq]
  · intro h500
    rcases cp_bodySteps_cases cfg w data with h | h
    · exact h
    · rw [h] at h500
      exact absurd h500 (by decide)

/-- Witness for C3 (amended): concrete worlds exercising each failing
step of the full workflow, and the commit-failure 500 of
commit-and-push carrying no step results. -/
theorem C3_partial_results_witness :
    (copilot_commit_push_workflow cfgDemo wCopilotFails dataFull).1 =
      ⟨500, .errorDetailsResults "Copilot execution failed"
        (copilotResult cfgDemo wCopilotFails dataFull).stderr
        [("copilot", copilotResult cfgDemo wCopilotFails dataFull)]⟩
    ∧ (copilot_commit_push_workflow cfgDemo wAddFails dataFull).1 =
      ⟨500, .errorDetailsResults "Failed to stage files"
        (addResult cfgDemo wAddFails dataFull).stderr
        [("copilot", copilotResult cfgDemo wAddFails dataFull),
         ("add", addResult cfgDemo wAddFails dataFull)]⟩
    ∧ (copilot_commit_push_workflow cfgDemo wCommitFails dataFull).1 =
      ⟨500, .errorDetailsResults "Failed to commit"
        (commitResult cfgDemo wCommitFails dataFull).stderr
        [("copilot", copilotResult cfgDemo wCommitFails dataFull),
         ("add", addResult cfgDemo wCommitFails dataFull),
         ("commit", commitResult cfgDemo wCommitFails dataFull)]⟩
    ∧ (copilot_commit_push_workflow cfgDemo wPushFails dataFull).1 =
      ⟨500, .errorDetailsResults "Failed to push"
        (pushResult cfgDemo wPushFails dataFull).stderr
        [("copilot", copilotResult cfgDemo wPushFails dataFull),
         ("add", addResult cfgDemo wPushFails dataFull),
         ("commit", commitResult cfgDemo wPushFails dataFull),
         ("push", pushResult cfgDemo wPushFails dataFull)]⟩
    ∧ bodySteps (commit_and_push cfgDemo wCommitFails dataFix).1.body
        = [] :=
  ⟨((C3_partial_results cfgDemo wCopilotFails dataFull).1 (by decide)).1
      (by decide),
   ((C3_partial_results cfgDemo wAddFails dataFull).1 (by decide)).2.1
      (by decide) (by decide),
   ((C3_partial_results cfgDemo wCommitFails dataFull).1 (by decide)).2.2.1
      (by decide) (by decide) (by decide),
   ((C3_partial_results cfgDemo wPushFails dataFull).1 (by decide)).2.2.2
      (by decide) (by decide) (by decide) (by decide),
   (C3_partial_results cfgDemo wCommitFails dataFix).2 (by decide)⟩

/-- Counterexample to C9 as stated: in an all-success run of the full
workflow, the keys of the returned `workflow_results` are `copilot`,
`add`, `commit`, `push` — the assistant step is keyed `copilot`, not
`generate`, although it did run (the first spawned command is the
assistant invocation). -/
theorem C9_counterexample :
    bodySteps (copilot_commit_push_workflow cfgDemo wAllOk
        dataFull).1.body = ["copilot", "add", "commit", "push"]
    ∧ bodySteps (copilot_commit_push_workflow cfgDemo wAllOk
        dataFull).1.body ≠ ["generate", "add", "commit", "push"]
    ∧ "generate" ∉ bodySteps (copilot_commit_push_workflow cfgDemo wAllOk
        dataFull).1.body
    ∧ (copilot_commit_push_workflow cfgDemo wAllOk dataFull).1.status = 200
    ∧ (spawned (copilot_commit_push_workflow cfgDemo wAllOk
        dataFull).2).head? = some (copilot_command "p" none) := by
  refine ⟨by decide, by decide, by decide, by decide, by decide⟩

/-- Claim C9 as amended: the full workflow's result is an ordered
mapping whose keys are exactly the code's step names `copilot`, `add`,
`commit`, `push` in that order — complete (with that exact four-entry
mapping and each step's CommandResult) on success, and truncated
immediately after the first failing step on failure. -/
theorem C9_workflow_keys (cfg : Config) (w : World) (data : RequestData) :
    wfReaches cfg w data = true →
    (((copilotResult cfg w data).success = true
      ∧ (addResult cfg w data).success = true
      ∧ (commitResult cfg w data).success = true
      ∧ (pushResult cfg w data).success = true) →
      (copilot_commit_push_workflow cfg w data).1 =
        ⟨200, .workflowOk
          [("copilot", copilotResult cfg w data),
           ("add", addResult cfg w data),
           ("commit", commitResult cfg w data),
           ("push", pushResult cfg w data)]⟩)
    ∧ ((copilotResult cfg w data).success = false →
      bodySteps (copilot_commit_push_workflow cfg w data).1.body =
        ["copilot"])
    ∧ ((copilotResult cfg w data).success = true →
       (addResult cfg w data).success = false →
      bodySteps (copilot_commit_push_workflow cfg w data).1.body =
        ["copilot", "add"])
    ∧ ((copilotResult cfg w data).success = true →
       (addResult cfg w data).success = true →
       (commitResult cfg w data).success = false →
      bodySteps (copilot_commit_push_workflow cfg w data).1.body =
        ["copilot", "add", "commit"])
    ∧ ((copilotResult cfg w data).success = true →
       (addResult cfg w data).success = true →
       (commitResult cfg w data).success = true →
       (pushResult cfg w data).success = false →
      bodySteps (copilot_commit_push_workflow cfg w data).1.body =
        ["copilot", "add", "commit", "push"]) := by
  intro hreach
  obtain ⟨hv, hp, hm, hr⟩ := (wfReaches_iff cfg w data).mp hreach
  refine ⟨?_, ?_, ?_, ?_, ?_⟩
  · rintro ⟨hg, ha, hc, hq⟩
    rw [wf_of_all_ok cfg w data hv hp hm hr hg ha hc hq]
  · intro hg
    rw [wf_of_copilot_fail cfg w data hv hp hm hr hg]
    rfl
  · intro hg ha
    rw [wf_of_add_fail cfg w data hv hp hm hr hg ha]
    rfl
  · intro hg ha hc
    rw [wf_of_commit_fail cfg w data hv hp hm hr hg ha hc]
    rfl
  · intro hg ha hc hq
    rw [wf_of_push_fail cfg w data hv hp hm hr hg ha hc hq]
    rfl

/-- Witness for C9 (amended): the all-success world yields the complete
four-entry mapping; worlds failing at each step yield the truncated
key lists. -/
theorem C9_workflow_keys_witness :
    (copilot_commit_push_workflow cfgDemo wAllOk dataFull).1 =
      ⟨200, .workflowOk
        [("copilot", copilotResult cfgDemo wAllOk dataFull),
         ("add", addResult cfgDemo wAllOk dataFull),
         ("commit", commitResult cfgDemo wAllOk dataFull),
         ("push", pushResult cfgDemo wAllOk dataFull)]⟩
    ∧ bodySteps (copilot_commit_push_workflow cfgDemo wCopilotFails
        dataFull).1.body = ["copilot"]
    ∧ bodySteps (copilot_commit_push_workflow cfgDemo wAddFails
        dataFull).1.body = ["copilot", "add"]
    ∧ bodySteps (copilot_commit_push_workflow cfgDemo wCommitFails
        dataFull).1.body = ["copilot", "add", "commit"]
    ∧ bodySteps (copilot_commit_push_workflow cfgDemo wPushFails
        dataFull).1.body = ["copilot", "add", "commit", "push"] :=
  ⟨(C9_workflow_keys cfgDemo wAllOk dataFull (by decide)).1
      ⟨by decide, by decide, by decide, by decide⟩,
   (C9_workflow_keys cfgDemo wCopilotFails dataFull (by decide)).2.1
      (by decide),
   (C9_workflow_keys cfgDemo wAddFails dataFull (by decide)).2.2.1
      (by decide) (by decide),
   (C9_workflow_keys cfgDemo wCommitFails dataFull (by decide)).2.2.2.1
      (by decide) (by decide) (by decide),
   (C9_workflow_keys cfgDemo wPushFails dataFull (by decide)).2.2.2.2
      (by decide) (by decide) (by decide) (by decide)⟩

/-- Counterexample to C4 as stated: with the assistant invocation
exiting 1 (stderr `copilot error`), the `/api/copilot/execute` response
has HTTP status 200 — not 500 — carrying `success: false` and the
stderr in its `error` field. -/
theorem C4_counterexample :
    (copilotResult cfgDemo wCopilotFails dataFull).success = false
    ∧ (execute_copilot_route cfgDemo wCopilotFails dataFull).1.status = 200
    ∧ (execute_copilot_route cfgDemo wCopilotFails dataFull).1.status ≠ 500
    ∧ (execute_copilot_route cfgDemo wCopilotFails dataFull).1.body =
        .executeOk false "" "copilot error" "" := by
  refine ⟨by decide, by decide, by decide, by decide⟩

/-- Claim C4 as amended: on the two multi-step workflow endpoints a
failing command (nonzero exit or timeout) yields a 500 response whose
`details` field is the failing step's captured stderr; but
`/api/copilot/execute` answers 200 even when the assistant invocation
fails, surfacing the captured stderr in the body's `error` field
alongside `success = false`. -/
theorem C4_command_failures (cfg : Config) (w : World) (data : RequestData) :
    (cpReaches cfg w data = true →
      ((addResult cfg w data).success = false →
        (commit_and_push cfg w data).1.status = 500
        ∧ bodyDetails (commit_and_push cfg w data).1.body =
            some (addResult cfg w data).stderr)
      ∧ ((addResult cfg w data).success = true →
         (commitResult cfg w data).success = false →
        (commit_and_push cfg w data).1.status = 500
        ∧ bodyDetails (commit_and_push cfg w data).1.body =
            some (commitResult cfg w data).stderr)
      ∧ ((addResult cfg w data).success = true →
         (commitResult cfg w data).success = true →
         (pushResult cfg w data).success = false →
        (commit_and_push cfg w data).1.status = 500
        ∧ bodyDetails (commit_and_push cfg w data).1.body =
            some (pushResult cfg w data).stderr))
    ∧ (wfReaches cfg w data = true →
      ((copilotResult cfg w data).success = false →
        (copilot_commit_push_workflow cfg w data).1.status = 500
        ∧ bodyDetails (copilot_commit_push_workflow cfg w data).1.body =
            some (copilotResult cfg w data).stderr)
      ∧ ((copilotResult cfg w data).success = true →
         (addResult cfg w data).success = false →
        (copilot_commit_push_workflow cfg w data).1.status = 500
        ∧ bodyDetails (copilot_commit_push_workflow cfg w data).1.body =
            some (addResult cfg w data).stderr)
      ∧ ((copilotResult cfg w data).success = true →
         (addResult cfg w data).success = true →
         (commitResult cfg w data).success = false →
        (copilot_commit_push_workflow cfg w data).1.status = 500
        ∧ bodyDetails (copilot_commit_push_workflow cfg w data).1.body =
            some (commitResult cfg w data).stderr)
      ∧ ((copilotResult cfg w data).success = true →
         (addResult cfg w data).success = true →
         (commitResult cfg w data).success = true →
         (pushResult cfg w data).success = false →
        (copilot_commit_push_workflow cfg w data).1.status = 500
        ∧ bodyDetails (copilot_commit_push_workflow cfg w data).1.body =
            some (pushResult cfg w data).stderr))
    ∧ (exReaches cfg w data = true →
      (execute_copilot_route cfg w data).1 =
        ⟨200, .executeOk (copilotResult cfg w data).success
          (copilotResult cfg w data).stdout
          (copilotResult cfg w data).stderr
          (statusResult cfg w data).stdout⟩) := by
  refine ⟨?_, ?_, ?_⟩
  · intro hreach
    obtain ⟨hv, hm, hr⟩ := (cpReaches_iff cfg w data).mp hreach
    refine ⟨?_, ?_, ?_⟩
    · intro ha
      rw [cp_of_add_fail cfg w data hv hm hr ha]
      exact ⟨rfl, rfl⟩
    · intro ha hc
      rw [cp_of_commit_fail cfg w data hv hm hr ha hc]
      exact ⟨rfl, rfl⟩
    · intro ha hc hq
      rw [cp_of_push_fail cfg w data hv hm hr ha hc hq]
      exact ⟨rfl, rfl⟩
  · intro hreach
    obtain ⟨hv, hp, hm, hr⟩ := (wfReaches_iff cfg w data).mp hreach
    refine ⟨?_, ?_, ?_, ?_⟩
    · intro hg
      rw [wf_of_copilot_fail cfg w data hv hp hm hr hg]
      exact ⟨rfl, rfl⟩
    · intro hg ha
      rw [wf_of_add_fail cfg w data hv hp hm hr hg ha]
      exact ⟨rfl, rfl⟩
    · intro hg ha hc
      rw [wf_of_commit_fail cfg w data hv hp hm hr hg ha hc]
      exact ⟨rfl, rfl⟩
    · intro hg ha hc hq
      rw [wf_of_push_fail cfg w data hv hp hm hr hg ha hc hq]
      exact ⟨rfl, rfl⟩
  · intro hreach
    obtain ⟨hv, hp, hr⟩ := (exReaches_iff cfg w data).mp hreach
    rw [ex_of_reach cfg w data hv hp hr]

/-- Witness for C4 (amended): each failing step of each workflow yields
the 500-with-stderr response, and the execute endpoint with a failing
assistant yields the 200 response with the stderr in the body. -/
theorem C4_command_failures_witness :
    ((commit_and_push cfgDemo wAddFails dataFix).1.status = 500
     ∧ bodyDetails (commit_and_push cfgDemo wAddFails dataFix).1.body =
         some (addResult cfgDemo wAddFails dataFix).stderr)
    ∧ ((commit_and_push cfgDemo wCommitFails dataFix).1.status = 500
     ∧ bodyDetails (commit_and_push cfgDemo wCommitFails dataFix).1.body =
         some (commitResult cfgDemo wCommitFails dataFix).stderr)
    ∧ ((commit_and_push cfgDemo wPushFails dataFix).1.status = 500
     ∧ bodyDetails (commit_and_push cfgDemo wPushFails dataFix).1.body =
         some (pushResult cfgDemo wPushFails dataFix).stderr)
    ∧ ((copilot_commit_push_workflow cfgDemo wCopilotFails
          dataFull).1.status = 500
     ∧ bodyDetails (copilot_commit_push_workflow cfgDemo wCopilotFails
          dataFull).1.body =
         some (copilotResult cfgDemo wCopilotFails dataFull).stderr)
    ∧ (execute_copilot_route cfgDemo wCopilotFails dataFull).1 =
        ⟨200, .executeOk (copilotResult cfgDemo wCopilotFails
            dataFull).success
          (copilotResult cfgDemo wCopilotFails dataFull).stdout
          (copilotResult cfgDemo wCopilotFails dataFull).stderr
          (statusResult cfgDemo wCopilotFails dataFull).stdout⟩ :=
  ⟨((C4_command_failures cfgDemo wAddFails dataFix).1 (by decide)).1
      (by decide),
   ((C4_command_failures cfgDemo wCommitFails dataFix).1 (by decide)).2.1
      (by decide) (by decide),
   ((C4_command_failures cfgDemo wPushFails dataFix).1 (by decide)).2.2
      (by decide) (by decide) (by decide),
   ((C4_command_failures cfgDemo wCopilotFails dataFull).2.1
      (by decide)).1 (by decide),
   (C4_command_failures cfgDemo wCopilotFails dataFull).2.2 (by decide)⟩
